import Mathlib

/-!
Verification of the user-storage service: a shallow embedding of the domain
model, the validation rules, the PostgreSQL storage engine and the HTTP
handlers, together with theorems about the claims of the specification.

Sources embedded here:
  internal/domain/user.go          (User entity)
  internal/domain (DTO file)       (UserCreate / UserUpdate / responses, validation tags)
  internal/storage/postgres.go     (PostgresStore: handleError, withTx, the five operations)
  internal/handler/user_handler.go (HTTP handlers and status mapping)

Machine integers from Go (int, int64) are modelled as Int. Timestamps are
abstract Nat values: no claim depends on clock behaviour. Fallible Go code
returning (T, error) is modelled as Except. Backend round trips are made
explicit: every storage operation takes the backend outcome as a parameter
and additionally returns the list of backend events it issued, so that
claims of the form "no backend access happens" become statements about an
empty event list.
-/

namespace RestfulApi

/-- The User entity, from internal/domain/user.go. -/
structure User where
  id : Int
  email : String
  firstName : String
  lastName : String
  createdAt : Nat
  updatedAt : Nat
deriving DecidableEq

/-- UserCreate DTO: email and both names, all required. Go zero values are
empty strings. -/
structure UserCreate where
  email : String
  firstName : String
  lastName : String
deriving DecidableEq

/-- UserUpdate DTO: every field optional; the empty string is the Go zero
value and means the field was not supplied. -/
structure UserUpdate where
  email : String
  firstName : String
  lastName : String
deriving DecidableEq

/-- UserResponse projection, from the domain DTO file. -/
structure UserResponse where
  id : Int
  email : String
  firstName : String
  lastName : String
  createdAt : Nat
  updatedAt : Nat
deriving DecidableEq

/-- ToResponse conversion from the domain DTO file. -/
def User.ToResponse (u : User) : UserResponse :=
  { id := u.id
    email := u.email
    firstName := u.firstName
    lastName := u.lastName
    createdAt := u.createdAt
    updatedAt := u.updatedAt }

/-- Paginated listing response, from the domain DTO file. -/
structure PaginatedUsersResponse where
  users : List UserResponse
  totalCount : Int
  page : Int
  pageSize : Int
  totalPages : Int
deriving DecidableEq

/-- Splitting of a character list at every occurrence of a separator,
used below to state the email grammar over the character data of a
string. -/
def splitOnChar (c : Char) : List Char → List (List Char)
  | [] => [[]]
  | x :: xs =>
    match splitOnChar c xs with
    | [] => [[x]]
    | y :: ys => if x = c then [] :: y :: ys else (x :: y) :: ys

/-- Modelled from the spec: the email rule of the third-party validation
library (tag "email"), which the source does not define itself and the
specification abstracts as "a standard email-address grammar". The model:
one "@" separating a non-empty local part from a domain that has at least
two non-empty dot-separated labels. -/
def emailMatches (s : String) : Bool :=
  match splitOnChar '@' s.data with
  | [lp, dom] =>
    let labels := splitOnChar '.' dom
    !lp.isEmpty && decide (2 ≤ labels.length) && labels.all (fun l => !l.isEmpty)
  | _ => false

/-- The validation tags that appear on the DTO struct fields. -/
inductive VTag where
  | required
  | email
  | alpha
  | minLen (n : Nat)
  | omitempty
deriving DecidableEq

/-- Semantics of a single validation tag on a string field.
"required" demands a non-zero value, "alpha" a non-empty all-letter string
(the regex is anchored and uses +, so the empty string fails), "min=n"
compares the character count. -/
def checkTag : VTag → String → Bool
  | .required, s => !s.data.isEmpty
  | .email, s => emailMatches s
  | .alpha, s => !s.data.isEmpty && s.data.all Char.isAlpha
  | .minLen n, s => decide (n ≤ s.data.length)
  | .omitempty, _ => true

/-- Evaluation of a tag list on a string field, as the validation library
does: tags run left to right, and "omitempty" short-circuits the rest of
the list when the field holds its zero value. -/
def validateField : List VTag → String → Bool
  | [], _ => true
  | .omitempty :: rest, s => if s.data.isEmpty then true else validateField rest s
  | t :: rest, s => checkTag t s && validateField rest s

/-- UserCreate.Validate, from the domain DTO file: tags
email: "required,email"; first and last name: "required,alpha".
True means the Go call returns a nil error. -/
def UserCreate.Validate (u : UserCreate) : Bool :=
  validateField [.required, .email] u.email &&
  validateField [.required, .alpha] u.firstName &&
  validateField [.required, .alpha] u.lastName

/-- UserUpdate.Validate, from the domain DTO file: tags
email: "omitempty,email"; first and last name: "omitempty,alpha,min=2". -/
def UserUpdate.Validate (u : UserUpdate) : Bool :=
  validateField [.omitempty, .email] u.email &&
  validateField [.omitempty, .alpha, .minLen 2] u.firstName &&
  validateField [.omitempty, .alpha, .minLen 2] u.lastName

/-- A pq.Error as far as handleError inspects it: SQLSTATE code and the
name of the violated constraint. -/
structure PqError where
  code : String
  constraint : String
deriving DecidableEq

/-- A raw Go backend error as far as the storage engine inspects it:
whether errors.As finds a pq.Error in its chain (and with which fields),
whether errors.Is finds sql.ErrNoRows, plus an opaque message making
distinct causes distinguishable. -/
structure GoError where
  pq : Option PqError
  isNoRows : Bool
  msg : String
deriving DecidableEq

/-- The typed storage errors from internal/storage/postgres.go.
ErrDatabaseInternal is produced by wrapping, so the model keeps the
wrapped cause. -/
inductive StoreErr where
  | userNotFound
  | duplicateEmail
  | invalidID
  | invalidPageSize
  | invalidPage
  | databaseInternal (cause : GoError)
deriving DecidableEq

/-- PostgresStore.handleError, translated clause for clause:
first the duplicate-email check (pq.Error with code 23505 and constraint
users_email_key), then the no-rows check, else log and wrap the cause as
the internal error. -/
def handleError (err : GoError) : StoreErr :=
  if (match err.pq with
      | some pqErr => pqErr.code == "23505" && pqErr.constraint == "users_email_key"
      | none => false)
  then .duplicateEmail
  else if err.isNoRows then .userNotFound
  else .databaseInternal err

/-- A positional SQL parameter value. -/
inductive SqlArg where
  | s (v : String)
  | i (v : Int)
deriving DecidableEq

/-- One backend round trip or transaction-control call issued by the
storage engine. The list of these events emitted by an operation is the
observable backend activity of that operation. -/
inductive DbEvent where
  | queryRow (sql : String) (args : List SqlArg)
  | query (sql : String) (args : List SqlArg)
  | exec (sql : String) (args : List SqlArg)
  | beginTx (readOnly : Bool)
  | commit
  | rollback
deriving DecidableEq

/-- SQL text constants from internal/storage/postgres.go, verbatim. -/
def sqlCreateUser : String :=
  "INSERT INTO users (email, first_name, last_name, created_at, updated_at) VALUES ($1, $2, $3, NOW(), NOW()) RETURNING id"

def sqlGetUserByID : String :=
  "SELECT id, email, first_name, last_name, created_at, updated_at FROM users WHERE id = $1"

def sqlDeleteUser : String :=
  "DELETE FROM users WHERE id = $1"

def sqlCountUsers : String :=
  "SELECT COUNT(*) FROM users"

def sqlListUsers : String :=
  "SELECT id, email, first_name, last_name, created_at, updated_at FROM users ORDER BY id LIMIT $1 OFFSET $2"

/-- PostgresStore.CreateUser: one QueryRowContext with the three DTO
fields; a scan failure goes through handleError. The backend outcome
(the scanned new id, or the raw error) is a parameter. -/
def createUser (userCreate : UserCreate) (scanResult : Except GoError Int) :
    Except StoreErr Int × List DbEvent :=
  (match scanResult with
   | .ok userID => .ok userID
   | .error e => .error (handleError e),
   [.queryRow sqlCreateUser [.s userCreate.email, .s userCreate.firstName, .s userCreate.lastName]])

/-- PostgresStore.GetUserByID: id validation first (no backend event),
then one QueryRowContext whose scan failure goes through handleError. -/
def getUserByID (id : Int) (scanResult : Except GoError User) :
    Except StoreErr User × List DbEvent :=
  if id ≤ 0 then (.error .invalidID, [])
  else
    (match scanResult with
     | .ok user => .ok user
     | .error e => .error (handleError e),
     [.queryRow sqlGetUserByID [.i id]])

/-- PostgresStore.buildUpdateQuery, translated clause for clause: the
three optional columns are appended in declaration order with a running
positional counter, then the unconditional updated_at clause, then the
WHERE clause consuming the final position for the id. -/
def buildUpdateQuery (userUpdate : UserUpdate) (id : Int) : String × List SqlArg :=
  let updates : List String := []
  let args : List SqlArg := []
  let argPosition : Nat := 1
  let (updates, args, argPosition) :=
    if userUpdate.email ≠ "" then
      (updates ++ ["email = $" ++ toString argPosition], args ++ [SqlArg.s userUpdate.email], argPosition + 1)
    else (updates, args, argPosition)
  let (updates, args, argPosition) :=
    if userUpdate.firstName ≠ "" then
      (updates ++ ["first_name = $" ++ toString argPosition], args ++ [SqlArg.s userUpdate.firstName], argPosition + 1)
    else (updates, args, argPosition)
  let (updates, args, argPosition) :=
    if userUpdate.lastName ≠ "" then
      (updates ++ ["last_name = $" ++ toString argPosition], args ++ [SqlArg.s userUpdate.lastName], argPosition + 1)
    else (updates, args, argPosition)
  let updates := updates ++ ["updated_at = NOW()"]
  let query := "UPDATE users SET " ++ String.intercalate ", " updates ++
    " WHERE id = $" ++ toString argPosition ++ " RETURNING id"
  (query, args ++ [SqlArg.i id])

/-- Outcome of an ExecContext round trip: the call itself may fail, the
subsequent RowsAffected call may fail, or a row count is returned. -/
inductive ExecOutcome where
  | execErr (e : GoError)
  | rowsErr (e : GoError)
  | rows (n : Nat)
deriving DecidableEq

/-- PostgresStore.UpdateUser: id validation, then one ExecContext with
the built query; both failure points go through handleError; zero rows
affected becomes ErrUserNotFound. -/
def updateUser (id : Int) (userUpdate : UserUpdate) (backend : ExecOutcome) :
    Except StoreErr Unit × List DbEvent :=
  if id ≤ 0 then (.error .invalidID, [])
  else
    let qa := buildUpdateQuery userUpdate id
    (match backend with
     | .execErr e => .error (handleError e)
     | .rowsErr e => .error (handleError e)
     | .rows n => if n = 0 then .error .userNotFound else .ok (),
     [.exec qa.1 qa.2])

/-- PostgresStore.DeleteUser: id validation, then one ExecContext; both
failure points go through handleError; zero rows affected becomes
ErrUserNotFound. -/
def deleteUser (id : Int) (backend : ExecOutcome) :
    Except StoreErr Unit × List DbEvent :=
  if id ≤ 0 then (.error .invalidID, [])
  else
    (match backend with
     | .execErr e => .error (handleError e)
     | .rowsErr e => .error (handleError e)
     | .rows n => if n = 0 then .error .userNotFound else .ok (),
     [.exec sqlDeleteUser [.i id]])

/-- PostgresStore.withTx: BeginTx with the read-only option (a failure
goes through handleError), the body, a deferred unconditional Rollback on
every exit path (after Commit it fails and is only logged), and a Commit
whose failure goes through handleError. Body errors are returned as they
are: the body has already mapped them. -/
def withTx {α : Type} (readOnly : Bool) (beginErr commitErr : Option GoError)
    (body : Except StoreErr α × List DbEvent) :
    Except StoreErr α × List DbEvent :=
  match beginErr with
  | some e => (.error (handleError e), [.beginTx readOnly])
  | none =>
    match body.1 with
    | .error err => (.error err, .beginTx readOnly :: body.2 ++ [.rollback])
    | .ok a =>
      match commitErr with
      | some e => (.error (handleError e), .beginTx readOnly :: body.2 ++ [.commit, .rollback])
      | none => (.ok a, .beginTx readOnly :: body.2 ++ [.commit, .rollback])

/-- Outcome of the rows phase of the listing query: the QueryContext call
may fail, a row scan may fail part way, rows.Err may report an iteration
failure, or all rows are scanned. -/
inductive RowsOutcome where
  | queryFail (e : GoError)
  | scanFail (scanned : List User) (e : GoError)
  | iterFail (rows : List User) (e : GoError)
  | ok (rows : List User)
deriving DecidableEq

/-- The backend, as seen by ListUsers: possible transaction begin and
commit failures, the count outcome, and the rows outcome as a function of
the limit and offset actually passed to the query. -/
structure ListBackend where
  beginErr : Option GoError
  countRes : Except GoError Int
  rowsRes : Int → Int → RowsOutcome
  commitErr : Option GoError

/-- PostgresStore.ListUsers: page and pageSize validation before any
backend access, then count and page slice inside a single read-only
transaction via withTx, with offset (page-1)*pageSize; every backend
failure point goes through handleError. -/
def listUsers (b : ListBackend) (page pageSize : Int) :
    Except StoreErr (List User × Int) × List DbEvent :=
  if page < 1 then (.error .invalidPage, [])
  else if pageSize < 1 ∨ pageSize > 100 then (.error .invalidPageSize, [])
  else
    let offset := (page - 1) * pageSize
    let listEvents := [DbEvent.queryRow sqlCountUsers [],
                       DbEvent.query sqlListUsers [.i pageSize, .i offset]]
    let body : Except StoreErr (List User × Int) × List DbEvent :=
      match b.countRes with
      | .error e => (.error (handleError e), [.queryRow sqlCountUsers []])
      | .ok totalCount =>
        match b.rowsRes pageSize offset with
        | .queryFail e => (.error (handleError e), listEvents)
        | .scanFail _ e => (.error (handleError e), listEvents)
        | .iterFail _ e => (.error (handleError e), listEvents)
        | .ok rows => (.ok (rows, totalCount), listEvents)
    withTx true b.beginErr b.commitErr body

/-- Insertion step for the model of ORDER BY id. -/
def insertById (u : User) : List User → List User
  | [] => [u]
  | v :: vs => if u.id ≤ v.id then u :: v :: vs else v :: insertById u vs

/-- Modelled semantics of the relational engine for "ORDER BY id": a
stable sort of the table rows by ascending id. -/
def sortById : List User → List User
  | [] => []
  | u :: us => insertById u (sortById us)

/-- Modelled semantics of the relational engine executing sqlListUsers:
order the table by id, skip OFFSET rows, return at most LIMIT rows. -/
def runListQuery (table : List User) (limit offset : Int) : List User :=
  ((sortById table).drop offset.toNat).take limit.toNat

/-- A backend in which no call fails and the count and slice queries are
answered honestly from the same table snapshot. -/
def honestListBackend (table : List User) : ListBackend :=
  { beginErr := none
    countRes := .ok (table.length : Int)
    rowsRes := fun limit offset => .ok (runListQuery table limit offset)
    commitErr := none }

/-- PostgresConfig, as consumed by NewPostgresStore; durations are
abstract tick counts. -/
structure PostgresConfig where
  host : String
  port : Int
  user : String
  password : String
  dbName : String
  sslMode : String
  maxOpenConns : Int
  maxIdleConns : Int
  connMaxLifetime : Int
  connMaxIdleTime : Int
deriving DecidableEq

/-- The pool knobs of a database handle. none means the handle keeps the
driver default because the corresponding setter was never called. -/
structure PoolSettings where
  maxOpenConns : Option Int
  maxIdleConns : Option Int
  connMaxLifetime : Option Int
  connMaxIdleTime : Option Int
deriving DecidableEq

/-- Pool knobs of a freshly opened handle: all at driver defaults. -/
def driverDefaultPool : PoolSettings :=
  { maxOpenConns := none, maxIdleConns := none
    connMaxLifetime := none, connMaxIdleTime := none }

/-- Connection-lifecycle events issued by NewPostgresStore. -/
inductive ConnEvent where
  | openConn (connStr : String)
  | pingWithTimeoutSecs (secs : Nat)
  | closeConn
deriving DecidableEq

/-- The connection string NewPostgresStore formats from the config. -/
def connString (cfg : PostgresConfig) : String :=
  "host=" ++ cfg.host ++ " port=" ++ toString cfg.port ++ " user=" ++ cfg.user ++
  " password=" ++ cfg.password ++ " dbname=" ++ cfg.dbName ++ " sslmode=" ++ cfg.sslMode

/-- The state NewPostgresStore leaves behind on success: the handle with
whatever pool knobs were applied to it. -/
structure PostgresStoreState where
  pool : PoolSettings
deriving DecidableEq

/-- NewPostgresStore, translated clause for clause: sql.Open with the
formatted connection string (its failure returns at once), then
PingContext under a five-second timeout, closing the handle before
returning when the ping fails. The function sets no pool knobs at any
point, so the returned handle carries the driver defaults. -/
def newPostgresStore (cfg : PostgresConfig) (openErr pingErr : Option GoError) :
    Except GoError PostgresStoreState × List ConnEvent :=
  match openErr with
  | some e => (.error e, [.openConn (connString cfg)])
  | none =>
    match pingErr with
    | some e => (.error e, [.openConn (connString cfg), .pingWithTimeoutSecs 5, .closeConn])
    | none =>
      (.ok { pool := driverDefaultPool },
       [.openConn (connString cfg), .pingWithTimeoutSecs 5])

/-- UserHandler.parseIDFromURL: the mux id variable after ParseInt (none
when ParseInt failed); non-positive values are rejected like parse
failures. -/
def parseIDFromURL (idVar : Option Int) : Option Int :=
  match idVar with
  | none => none
  | some id => if id ≤ 0 then none else some id

/-- UserHandler.CreateUser status logic: decode failure and validation
failure give 400, ErrDuplicateEmail gives 409, any other store error
gives 500, success gives 201. The decoded body (none on decode failure)
and the store outcome are parameters. -/
def createUserHandler (body : Option UserCreate) (storeResult : Except StoreErr Int) : Int :=
  match body with
  | none => 400
  | some userCreate =>
    if userCreate.Validate then
      match storeResult with
      | .error .duplicateEmail => 409
      | .error _ => 500
      | .ok _ => 201
    else 400

/-- UserHandler.GetUser status logic: unparsable or non-positive id gives
400, ErrUserNotFound gives 404, any other store error gives 500, success
gives 200. -/
def getUserHandler (idVar : Option Int) (storeResult : Except StoreErr User) : Int :=
  match parseIDFromURL idVar with
  | none => 400
  | some _ =>
    match storeResult with
    | .error .userNotFound => 404
    | .error _ => 500
    | .ok _ => 200

/-- UserHandler.UpdateUser status logic: bad id, decode failure or
validation failure give 400, ErrUserNotFound gives 404, ErrDuplicateEmail
gives 409, any other store error gives 500, success gives 200. -/
def updateUserHandler (idVar : Option Int) (body : Option UserUpdate)
    (storeResult : Except StoreErr Unit) : Int :=
  match parseIDFromURL idVar with
  | none => 400
  | some _ =>
    match body with
    | none => 400
    | some userUpdate =>
      if userUpdate.Validate then
        match storeResult with
        | .error .userNotFound => 404
        | .error .duplicateEmail => 409
        | .error _ => 500
        | .ok _ => 200
      else 400

/-- UserHandler.DeleteUser status logic: bad id gives 400, ErrUserNotFound
gives 404, any other store error gives 500, success gives 204. -/
def deleteUserHandler (idVar : Option Int) (storeResult : Except StoreErr Unit) : Int :=
  match parseIDFromURL idVar with
  | none => 400
  | some _ =>
    match storeResult with
    | .error .userNotFound => 404
    | .error _ => 500
    | .ok _ => 204

/-- UserHandler.ListUsers: the page parameter falls back to 1 when absent,
unparsable or non-positive, the page_size parameter falls back to 10 when
absent, unparsable, non-positive or above 100; the store is called with
the resulting values; any store error gives 500; on success the response
carries the rows, the total count, the effective page and page size, and
total pages computed as the truncating division of the total count by the
page size, floored at 1. -/
def listUsersHandler (pageParam pageSizeParam : Option Int)
    (store : Int → Int → Except StoreErr (List User × Int)) :
    Int × Option PaginatedUsersResponse :=
  let page := match pageParam with
    | some p => if p ≤ 0 then 1 else p
    | none => 1
  let pageSize := match pageSizeParam with
    | some p => if p ≤ 0 ∨ p > 100 then 10 else p
    | none => 10
  match store page pageSize with
  | .error _ => (500, none)
  | .ok (users, totalCount) =>
    let totalPages := Int.tdiv totalCount pageSize
    let totalPages := if totalPages < 1 then 1 else totalPages
    (200, some { users := users.map User.ToResponse
                 totalCount := totalCount
                 page := page
                 pageSize := pageSize
                 totalPages := totalPages })

instance {e a : Type} [DecidableEq e] [DecidableEq a] : DecidableEq (Except e a)
  | .ok x, .ok y =>
    if h : x = y then .isTrue (by rw [h]) else .isFalse (by intro hc; cases hc; exact h rfl)
  | .ok _, .error _ => .isFalse (by intro hc; cases hc)
  | .error _, .ok _ => .isFalse (by intro hc; cases hc)
  | .error x, .error y =>
    if h : x = y then .isTrue (by rw [h]) else .isFalse (by intro hc; cases hc; exact h rfl)

/-- The pq.Error shape that the storage engine treats as a duplicate-email
signal. -/
def dupEmailPq : PqError := { code := "23505", constraint := "users_email_key" }

/-- C10: the error mapping returns DuplicateEmail exactly for a Postgres
driver error with SQLSTATE 23505 whose constraint is users_email_key; any
other error becomes NotFound when it is a no-rows signal and otherwise is
wrapped as DatabaseInternal. -/
theorem c10_duplicate_email_requires_exact_constraint (e : GoError) :
    (handleError e = .duplicateEmail ↔ e.pq = some dupEmailPq) ∧
    (e.pq ≠ some dupEmailPq →
      handleError e = if e.isNoRows then .userNotFound else .databaseInternal e) := by
  obtain ⟨pq, noRows, msg⟩ := e
  constructor
  · constructor
    · intro h
      cases pq with
      | none =>
        simp only [handleError] at h
        split at h
        · simp_all
        · split at h <;> simp_all
      | some p =>
        obtain ⟨c, k⟩ := p
        by_cases hc : c = "23505" <;> by_cases hk : k = "users_email_key"
        · simp [dupEmailPq, hc, hk]
        all_goals
          simp only [handleError, hc, hk] at h
          split at h <;> simp_all [dupEmailPq]
          split at h <;> simp_all
    · intro h
      simp only [GoError.pq] at h
      subst h
      simp [handleError, dupEmailPq]
  · intro h
    cases pq with
    | none =>
      simp only [handleError]
      split
      · simp_all
      · rfl
    | some p =>
      obtain ⟨c, k⟩ := p
      have hne : ¬(c = "23505" ∧ k = "users_email_key") := by
        intro ⟨h1, h2⟩
        exact h (by simp [dupEmailPq, h1, h2])
      simp only [handleError]
      split
      · rename_i hcond
        exfalso
        apply hne
        constructor <;> simp_all
      · rfl

/-- C10 witness: a unique-constraint violation under a different
constraint name is not DuplicateEmail but is wrapped as the internal
error. -/
theorem c10_witness :
    handleError { pq := some { code := "23505", constraint := "users_pkey" }, isNoRows := false, msg := "dup" } =
      .databaseInternal { pq := some { code := "23505", constraint := "users_pkey" }, isNoRows := false, msg := "dup" } := by
  have h := (c10_duplicate_email_requires_exact_constraint
    { pq := some { code := "23505", constraint := "users_pkey" }, isNoRows := false, msg := "dup" }).2
    (by decide)
  simpa using h

/-- C1: handleError maps a unique-constraint violation on the email
column to DuplicateEmail, otherwise a no-rows signal to NotFound,
otherwise it wraps the cause as DatabaseInternal; and every storage
operation surfaces every backend error through handleError — the sharp
routing equations for CreateUser, GetUserByID, UpdateUser and DeleteUser,
the sharp equations for all six ListUsers failure points, and the
catch-all for ListUsers: whatever error it returns is a validation error
or the image of some backend error under handleError. -/
theorem c1_handle_error_is_the_single_mapping_path
    (e : GoError) (uc : UserCreate) (uu : UserUpdate)
    (id page pageSize t : Int) (rows scanned : List User)
    (b : ListBackend) (err : StoreErr)
    (hid : 0 < id) (hp : 1 ≤ page) (hps1 : 1 ≤ pageSize) (hps2 : pageSize ≤ 100) :
    (e.pq = some dupEmailPq → handleError e = .duplicateEmail) ∧
    (e.pq ≠ some dupEmailPq → e.isNoRows = true → handleError e = .userNotFound) ∧
    (e.pq ≠ some dupEmailPq → e.isNoRows = false → handleError e = .databaseInternal e) ∧
    (createUser uc (.error e)).1 = .error (handleError e) ∧
    (getUserByID id (.error e)).1 = .error (handleError e) ∧
    (updateUser id uu (.execErr e)).1 = .error (handleError e) ∧
    (updateUser id uu (.rowsErr e)).1 = .error (handleError e) ∧
    (deleteUser id (.execErr e)).1 = .error (handleError e) ∧
    (deleteUser id (.rowsErr e)).1 = .error (handleError e) ∧
    (listUsers { b with beginErr := some e } page pageSize).1 = .error (handleError e) ∧
    (listUsers { b with beginErr := none, countRes := .error e } page pageSize).1
      = .error (handleError e) ∧
    (listUsers { b with
        beginErr := none
        countRes := .ok t
        rowsRes := fun _ _ => .queryFail e } page pageSize).1 = .error (handleError e) ∧
    (listUsers { b with
        beginErr := none
        countRes := .ok t
        rowsRes := fun _ _ => .scanFail scanned e } page pageSize).1 = .error (handleError e) ∧
    (listUsers { b with
        beginErr := none
        countRes := .ok t
        rowsRes := fun _ _ => .iterFail rows e } page pageSize).1 = .error (handleError e) ∧
    (listUsers { b with
        beginErr := none
        countRes := .ok t
        rowsRes := fun _ _ => .ok rows
        commitErr := some e } page pageSize).1 = .error (handleError e) ∧
    ((listUsers b page pageSize).1 = .error err →
      err = .invalidPage ∨ err = .invalidPageSize ∨ ∃ e2, err = handleError e2) := by
  have hnp : ¬page < 1 := by omega
  have hnps : ¬(pageSize < 1 ∨ pageSize > 100) := by omega
  have hnid : ¬id ≤ 0 := by omega
  refine ⟨?_, ?_, ?_, ?_, ?_, ?_, ?_, ?_, ?_, ?_, ?_, ?_, ?_, ?_, ?_, ?_⟩
  · intro h
    exact ((c10_duplicate_email_requires_exact_constraint e).1).2 h
  · intro h hn
    have := (c10_duplicate_email_requires_exact_constraint e).2 h
    rw [hn] at this
    simpa using this
  · intro h hn
    have := (c10_duplicate_email_requires_exact_constraint e).2 h
    rw [hn] at this
    simpa using this
  · rfl
  · simp [getUserByID, hnid]
  · simp [updateUser, hnid]
  · simp [updateUser, hnid]
  · simp [deleteUser, hnid]
  · simp [deleteUser, hnid]
  · simp [listUsers, hnp, hnps, withTx]
  · simp [listUsers, hnp, hnps, withTx]
  · simp [listUsers, hnp, hnps, withTx]
  · simp [listUsers, hnp, hnps, withTx]
  · simp [listUsers, hnp, hnps, withTx]
  · simp [listUsers, hnp, hnps, withTx]
  · intro hres
    simp only [listUsers, hnp, hnps, if_neg, if_false] at hres
    rcases hb : b.beginErr with _ | e1
    · rcases hc : b.countRes with e2 | tc
      · rw [hb, hc] at hres
        simp [withTx] at hres
        exact .inr (.inr ⟨e2, hres.symm⟩)
      · rcases hr : b.rowsRes pageSize ((page - 1) * pageSize) with e3 | ⟨_, e3⟩ | ⟨_, e3⟩ | rs
        all_goals rw [hb, hc, hr] at hres
        all_goals simp [withTx] at hres
        · exact .inr (.inr ⟨e3, hres.symm⟩)
        · exact .inr (.inr ⟨e3, hres.symm⟩)
        · exact .inr (.inr ⟨e3, hres.symm⟩)
        · rcases hcm : b.commitErr with _ | e4
          · rw [hcm] at hres
            simp at hres
          · rw [hcm] at hres
            simp at hres
            exact .inr (.inr ⟨e4, hres.symm⟩)
    · rw [hb] at hres
      simp [withTx] at hres
      exact .inr (.inr ⟨e1, hres.symm⟩)

/-- C1 witness: at a concrete backend error and concrete valid inputs,
the routing equations hold. -/
theorem c1_witness :
    (updateUser 1 { email := "", firstName := "", lastName := "" }
      (.execErr { pq := none, isNoRows := false, msg := "conn reset" })).1
      = .error (handleError { pq := none, isNoRows := false, msg := "conn reset" }) := by
  have h := c1_handle_error_is_the_single_mapping_path
    { pq := none, isNoRows := false, msg := "conn reset" }
    { email := "", firstName := "", lastName := "" }
    { email := "", firstName := "", lastName := "" }
    1 1 10 0 [] [] (honestListBackend []) .invalidPage
    (by decide) (by decide) (by decide) (by decide)
  exact h.2.2.2.2.2.1

/-- C5: for every non-positive identity, GetUserByID, UpdateUser and
DeleteUser return InvalidID with an empty backend event list, whatever
the backend would have answered. -/
theorem c5_nonpositive_id_rejected_without_backend
    (id : Int) (h : id ≤ 0) (scan : Except GoError User) (uu : UserUpdate)
    (ex1 ex2 : ExecOutcome) :
    getUserByID id scan = (.error .invalidID, []) ∧
    updateUser id uu ex1 = (.error .invalidID, []) ∧
    deleteUser id ex2 = (.error .invalidID, []) := by
  refine ⟨?_, ?_, ?_⟩ <;> simp [getUserByID, updateUser, deleteUser, h]

/-- C5 witness: at identity -5 all three operations reject with InvalidID
and no backend event. -/
theorem c5_witness :
    getUserByID (-5) (.error { pq := none, isNoRows := true, msg := "" })
      = (.error .invalidID, []) ∧
    updateUser (-5) { email := "a@b.c", firstName := "", lastName := "" } (.rows 1)
      = (.error .invalidID, []) ∧
    deleteUser (-5) (.rows 1) = (.error .invalidID, []) :=
  c5_nonpositive_id_rejected_without_backend (-5) (by decide)
    (.error { pq := none, isNoRows := true, msg := "" })
    { email := "a@b.c", firstName := "", lastName := "" } (.rows 1) (.rows 1)

/-- C4 counterexample: the claim asserts InvalidPageSize whenever the page
size is out of range, but at page 0 with page size 0 the code returns
InvalidPage, which is a different error value. -/
theorem c4_counterexample :
    (listUsers (honestListBackend []) 0 0).1 = .error .invalidPage ∧
    StoreErr.invalidPage ≠ StoreErr.invalidPageSize := by
  exact ⟨rfl, by decide⟩

/-- C4 amended: page is checked first, so InvalidPage answers every call
with page below 1, and InvalidPageSize answers every call with a valid
page and a page size outside 1..100; both reject with an empty backend
event list, whatever backend is attached. -/
theorem c4_validation_before_backend (b : ListBackend) (page pageSize : Int) :
    (page < 1 → listUsers b page pageSize = (.error .invalidPage, [])) ∧
    (1 ≤ page → (pageSize < 1 ∨ 100 < pageSize) →
      listUsers b page pageSize = (.error .invalidPageSize, [])) := by
  constructor
  · intro h
    simp [listUsers, h]
  · intro h1 h2
    have hnp : ¬page < 1 := by omega
    have hps : pageSize < 1 ∨ pageSize > 100 := by omega
    simp [listUsers, hnp, hps]

/-- C4 witness: page 0 rejects as InvalidPage; page 1 with page size 0
and with page size 101 rejects as InvalidPageSize; all without backend
events. -/
theorem c4_witness :
    listUsers (honestListBackend []) 0 7 = (.error .invalidPage, []) ∧
    listUsers (honestListBackend []) 1 0 = (.error .invalidPageSize, []) ∧
    listUsers (honestListBackend []) 1 101 = (.error .invalidPageSize, []) :=
  ⟨(c4_validation_before_backend (honestListBackend []) 0 7).1 (by decide),
   (c4_validation_before_backend (honestListBackend []) 1 0).2 (by decide) (by decide),
   (c4_validation_before_backend (honestListBackend []) 1 101).2 (by decide) (by decide)⟩

/-- C2: the update statement binds exactly the supplied fields in
declaration order (email, first name, last name) followed by the
identity; its text names exactly the supplied columns plus the
unconditional updated_at refresh, with consecutive positional numbering
(all eight supply patterns spelled out); zero rows affected yields
NotFound; and the no-field update still executes one statement. -/
theorem c2_update_statement_shape (id : Int) (uu : UserUpdate) (hid : 0 < id) :
    (buildUpdateQuery uu id).2 =
      ((if uu.email ≠ "" then [SqlArg.s uu.email] else []) ++
       (if uu.firstName ≠ "" then [SqlArg.s uu.firstName] else []) ++
       (if uu.lastName ≠ "" then [SqlArg.s uu.lastName] else []) ++ [SqlArg.i id]) ∧
    (uu.email = "" → uu.firstName = "" → uu.lastName = "" →
      (buildUpdateQuery uu id).1 =
        "UPDATE users SET updated_at = NOW() WHERE id = $1 RETURNING id") ∧
    (uu.email ≠ "" → uu.firstName = "" → uu.lastName = "" →
      (buildUpdateQuery uu id).1 =
        "UPDATE users SET email = $1, updated_at = NOW() WHERE id = $2 RETURNING id") ∧
    (uu.email = "" → uu.firstName ≠ "" → uu.lastName = "" →
      (buildUpdateQuery uu id).1 =
        "UPDATE users SET first_name = $1, updated_at = NOW() WHERE id = $2 RETURNING id") ∧
    (uu.email = "" → uu.firstName = "" → uu.lastName ≠ "" →
      (buildUpdateQuery uu id).1 =
        "UPDATE users SET last_name = $1, updated_at = NOW() WHERE id = $2 RETURNING id") ∧
    (uu.email ≠ "" → uu.firstName ≠ "" → uu.lastName = "" →
      (buildUpdateQuery uu id).1 =
        "UPDATE users SET email = $1, first_name = $2, updated_at = NOW() WHERE id = $3 RETURNING id") ∧
    (uu.email ≠ "" → uu.firstName = "" → uu.lastName ≠ "" →
      (buildUpdateQuery uu id).1 =
        "UPDATE users SET email = $1, last_name = $2, updated_at = NOW() WHERE id = $3 RETURNING id") ∧
    (uu.email = "" → uu.firstName ≠ "" → uu.lastName ≠ "" →
      (buildUpdateQuery uu id).1 =
        "UPDATE users SET first_name = $1, last_name = $2, updated_at = NOW() WHERE id = $3 RETURNING id") ∧
    (uu.email ≠ "" → uu.firstName ≠ "" → uu.lastName ≠ "" →
      (buildUpdateQuery uu id).1 =
        "UPDATE users SET email = $1, first_name = $2, last_name = $3, updated_at = NOW() WHERE id = $4 RETURNING id") ∧
    updateUser id uu (.rows 0) =
      (.error .userNotFound, [.exec (buildUpdateQuery uu id).1 (buildUpdateQuery uu id).2]) := by
  have hnid : ¬id ≤ 0 := by omega
  refine ⟨?_, ?_, ?_, ?_, ?_, ?_, ?_, ?_, ?_, ?_⟩
  · by_cases he : uu.email = "" <;> by_cases hf : uu.firstName = "" <;>
      by_cases hl : uu.lastName = "" <;> simp [buildUpdateQuery, he, hf, hl]
  · intro he hf hl
    simp [buildUpdateQuery, he, hf, hl]
    try rfl
  · intro he hf hl
    simp [buildUpdateQuery, he, hf, hl]
    try rfl
  · intro he hf hl
    simp [buildUpdateQuery, he, hf, hl]
    try rfl
  · intro he hf hl
    simp [buildUpdateQuery, he, hf, hl]
    try rfl
  · intro he hf hl
    simp [buildUpdateQuery, he, hf, hl]
    try rfl
  · intro he hf hl
    simp [buildUpdateQuery, he, hf, hl]
    try rfl
  · intro he hf hl
    simp [buildUpdateQuery, he, hf, hl]
    try rfl
  · intro he hf hl
    simp [buildUpdateQuery, he, hf, hl]
    try rfl
  · simp [updateUser, hnid]

/-- C2 witness: the email-only update at identity 999 produces exactly
the statement asserted by the storage unit test, and zero affected rows
surface NotFound. -/
theorem c2_witness :
    (buildUpdateQuery { email := "updated@example.com", firstName := "", lastName := "" } 999).1 =
      "UPDATE users SET email = $1, updated_at = NOW() WHERE id = $2 RETURNING id" ∧
    (buildUpdateQuery { email := "updated@example.com", firstName := "", lastName := "" } 999).2 =
      [SqlArg.s "updated@example.com", SqlArg.i 999] ∧
    (updateUser 999 { email := "updated@example.com", firstName := "", lastName := "" } (.rows 0)).1 =
      .error .userNotFound := by
  have h := c2_update_statement_shape 999
    { email := "updated@example.com", firstName := "", lastName := "" } (by decide)
  refine ⟨h.2.2.1 (by decide) rfl rfl, ?_, ?_⟩
  · rw [h.1]
    decide
  · rw [congrArg Prod.fst h.2.2.2.2.2.2.2.2.2]

/-- Ascending-identity order between rows. -/
def idLe (a b : User) : Prop := a.id ≤ b.id

lemma mem_insertById {b u : User} {l : List User} :
    b ∈ insertById u l ↔ b = u ∨ b ∈ l := by
  induction l with
  | nil => simp [insertById]
  | cons v vs ih =>
    simp only [insertById]
    split
    · simp [List.mem_cons]
    · simp only [List.mem_cons, ih]
      tauto

lemma insertById_pairwise (u : User) {l : List User}
    (h : l.Pairwise idLe) : (insertById u l).Pairwise idLe := by
  induction l with
  | nil => simp [insertById, List.pairwise_singleton]
  | cons v vs ih =>
    rcases List.pairwise_cons.mp h with ⟨hv, hvs⟩
    simp only [insertById]
    split
    · rename_i hle
      refine List.pairwise_cons.mpr ⟨?_, h⟩
      intro b hb
      rcases List.mem_cons.mp hb with rfl | hb2
      · exact hle
      · exact le_trans hle (hv b hb2)
    · rename_i hgt
      refine List.pairwise_cons.mpr ⟨?_, ih hvs⟩
      intro b hb
      rcases mem_insertById.mp hb with rfl | hb2
      · exact le_of_not_le hgt
      · exact hv b hb2

lemma sortById_pairwise (l : List User) : (sortById l).Pairwise idLe := by
  induction l with
  | nil => simp [sortById]
  | cons u us ih => exact insertById_pairwise u ih

lemma insertById_length (u : User) (l : List User) :
    (insertById u l).length = l.length + 1 := by
  induction l with
  | nil => rfl
  | cons v vs ih =>
    simp only [insertById]
    split
    · simp
    · simp [ih]

lemma sortById_length (l : List User) : (sortById l).length = l.length := by
  induction l with
  | nil => rfl
  | cons u us ih => simp [sortById, insertById_length, ih]

/-- C6: for valid page and page size, ListUsers against an honest backend
succeeds with the offset/limit slice of the identity-sorted table and the
table cardinality as total count; the slice is sorted by ascending
identity; its length is the page size capped by the remaining rows (zero
when the page starts past the end — shorter or empty, never an error);
and the backend trace is one read-only transaction enclosing exactly the
count query and the slice query with limit pageSize and offset
(page-1)*pageSize (the trailing rollback is the deferred no-op rollback
after commit). -/
theorem c6_list_users_reads_slice_in_one_readonly_tx
    (table : List User) (page pageSize : Int)
    (hp : 1 ≤ page) (hps1 : 1 ≤ pageSize) (hps2 : pageSize ≤ 100) :
    (listUsers (honestListBackend table) page pageSize).1 =
      .ok (runListQuery table pageSize ((page - 1) * pageSize), (table.length : Int)) ∧
    (runListQuery table pageSize ((page - 1) * pageSize)).Pairwise idLe ∧
    (runListQuery table pageSize ((page - 1) * pageSize)).length =
      min pageSize.toNat (table.length - ((page - 1) * pageSize).toNat) ∧
    (listUsers (honestListBackend table) page pageSize).2 =
      [.beginTx true, .queryRow sqlCountUsers [],
       .query sqlListUsers [.i pageSize, .i ((page - 1) * pageSize)],
       .commit, .rollback] := by
  have hnp : ¬page < 1 := by omega
  have hnps : ¬(pageSize < 1 ∨ pageSize > 100) := by omega
  refine ⟨?_, ?_, ?_, ?_⟩
  · simp [listUsers, hnp, hnps, honestListBackend, withTx]
  · exact List.Pairwise.sublist
      ((List.take_sublist _ _).trans (List.drop_sublist _ _))
      (sortById_pairwise table)
  · simp [runListQuery, List.length_take, List.length_drop, sortById_length]
  · simp [listUsers, hnp, hnps, honestListBackend, withTx]

/-- C6 witness: two seeded rows, page 2 at page size 1 returns the second
row in order with total count 2; the same table at page 4 returns the
empty slice, not an error. -/
theorem c6_witness :
    (listUsers (honestListBackend
      [{ id := 2, email := "b@x.y", firstName := "B", lastName := "B", createdAt := 0, updatedAt := 0 },
       { id := 1, email := "a@x.y", firstName := "A", lastName := "A", createdAt := 0, updatedAt := 0 }]) 2 1).1 =
      .ok ([{ id := 2, email := "b@x.y", firstName := "B", lastName := "B", createdAt := 0, updatedAt := 0 }], 2) ∧
    (listUsers (honestListBackend
      [{ id := 2, email := "b@x.y", firstName := "B", lastName := "B", createdAt := 0, updatedAt := 0 },
       { id := 1, email := "a@x.y", firstName := "A", lastName := "A", createdAt := 0, updatedAt := 0 }]) 4 1).1 =
      .ok ([], 2) := by
  have h2 := c6_list_users_reads_slice_in_one_readonly_tx
    [{ id := 2, email := "b@x.y", firstName := "B", lastName := "B", createdAt := 0, updatedAt := 0 },
     { id := 1, email := "a@x.y", firstName := "A", lastName := "A", createdAt := 0, updatedAt := 0 }]
    2 1 (by decide) (by decide) (by decide)
  have h4 := c6_list_users_reads_slice_in_one_readonly_tx
    [{ id := 2, email := "b@x.y", firstName := "B", lastName := "B", createdAt := 0, updatedAt := 0 },
     { id := 1, email := "a@x.y", firstName := "A", lastName := "A", createdAt := 0, updatedAt := 0 }]
    4 1 (by decide) (by decide) (by decide)
  constructor
  · rw [h2.1]
    decide
  · rw [h4.1]
    decide

/-- C3: for valid page and page-size parameters and a successful store
call, the listing handler answers 200 with total pages computed as the
truncating integer division of the total count by the page size floored
at 1, and with the page and page size echoed back unchanged. -/
theorem c3_total_pages_is_floored_truncating_division
    (p ps : Int) (store : Int → Int → Except StoreErr (List User × Int))
    (users : List User) (total : Int)
    (hp : 0 < p) (hps1 : 0 < ps) (hps2 : ps ≤ 100)
    (hst : store p ps = .ok (users, total)) :
    listUsersHandler (some p) (some ps) store =
      (200, some { users := users.map User.ToResponse
                   totalCount := total
                   page := p
                   pageSize := ps
                   totalPages := max 1 (Int.tdiv total ps) }) := by
  have hnp : ¬p ≤ 0 := by omega
  have hnps : ¬(ps ≤ 0 ∨ ps > 100) := by omega
  simp only [listUsersHandler, hnp, hnps, if_neg, if_false, hst]
  rcases lt_or_le (Int.tdiv total ps) 1 with h | h
  · simp [if_pos h, max_eq_left h.le]
  · simp [if_neg (not_lt.mpr h), max_eq_right h]

/-- C3 witness: 20 rows at page size 5 on page 2 give total pages 4 with
page 2 and page size 5 echoed; 21 rows at page size 5 also give total
pages 4 (the truncated fifth page is dropped); 0 rows give the floor 1. -/
theorem c3_witness :
    listUsersHandler (some 2) (some 5) (fun _ _ => .ok ([], 20)) =
      (200, some { users := [], totalCount := 20, page := 2, pageSize := 5, totalPages := 4 }) ∧
    listUsersHandler (some 1) (some 5) (fun _ _ => .ok ([], 21)) =
      (200, some { users := [], totalCount := 21, page := 1, pageSize := 5, totalPages := 4 }) ∧
    listUsersHandler (some 1) (some 5) (fun _ _ => .ok ([], 0)) =
      (200, some { users := [], totalCount := 0, page := 1, pageSize := 5, totalPages := 1 }) := by
  refine ⟨?_, ?_, ?_⟩
  · rw [c3_total_pages_is_floored_truncating_division 2 5 (fun _ _ => .ok ([], 20)) [] 20
      (by decide) (by decide) (by decide) rfl]
    decide
  · rw [c3_total_pages_is_floored_truncating_division 1 5 (fun _ _ => .ok ([], 21)) [] 21
      (by decide) (by decide) (by decide) rfl]
    decide
  · rw [c3_total_pages_is_floored_truncating_division 1 5 (fun _ _ => .ok ([], 0)) [] 0
      (by decide) (by decide) (by decide) rfl]
    decide

/-- C9 counterexample: a request with the invalid page value 0 is not
rejected with 400; the handler silently substitutes the default page and
answers 200 against an honest empty store. -/
theorem c9_counterexample :
    (listUsersHandler (some 0) (some 10)
      (fun p ps => (listUsers (honestListBackend []) p ps).1)).1 = 200 ∧
    (200 : Int) ≠ 400 := by
  exact ⟨rfl, by decide⟩

/-- C9 amended: the handlers map DuplicateEmail to 409, NotFound to 404,
an invalid path identity to 400, an internal mapped error to 500 and a
successful delete to 204; but invalid page or page-size query values are
not mapped to 400 — they are silently replaced by the defaults 1 and 10
and the request proceeds (200 on success, 500 only on a store error). -/
theorem c9_status_mapping
    (uc : UserCreate) (uu : UserUpdate) (id idBad i total : Int) (e : GoError)
    (u : User) (users : List User)
    (rU : Except StoreErr User) (rUp rD : Except StoreErr Unit)
    (st : Int → Int → Except StoreErr (List User × Int))
    (hvc : uc.Validate = true) (hvu : uu.Validate = true)
    (hid : 0 < id) (hbad : idBad ≤ 0)
    (hst : st 1 10 = .ok (users, total)) :
    createUserHandler (some uc) (.error .duplicateEmail) = 409 ∧
    createUserHandler (some uc) (.error (.databaseInternal e)) = 500 ∧
    createUserHandler (some uc) (.ok i) = 201 ∧
    getUserHandler (some id) (.error .userNotFound) = 404 ∧
    getUserHandler (some id) (.error (.databaseInternal e)) = 500 ∧
    getUserHandler (some id) (.ok u) = 200 ∧
    getUserHandler (some idBad) rU = 400 ∧
    updateUserHandler (some id) (some uu) (.error .userNotFound) = 404 ∧
    updateUserHandler (some id) (some uu) (.error .duplicateEmail) = 409 ∧
    updateUserHandler (some id) (some uu) (.error (.databaseInternal e)) = 500 ∧
    updateUserHandler (some id) (some uu) (.ok ()) = 200 ∧
    updateUserHandler (some idBad) (some uu) rUp = 400 ∧
    deleteUserHandler (some id) (.ok ()) = 204 ∧
    deleteUserHandler (some id) (.error .userNotFound) = 404 ∧
    deleteUserHandler (some id) (.error (.databaseInternal e)) = 500 ∧
    deleteUserHandler (some idBad) rD = 400 ∧
    (listUsersHandler (some 1) (some 10) (fun _ _ => .error (.databaseInternal e))).1 = 500 ∧
    (listUsersHandler (some 0) (some 101) st).1 = 200 := by
  have hnid : ¬id ≤ 0 := by omega
  refine ⟨?_, ?_, ?_, ?_, ?_, ?_, ?_, ?_, ?_, ?_, ?_, ?_, ?_, ?_, ?_, ?_, ?_, ?_⟩
  · simp [createUserHandler, hvc]
  · simp [createUserHandler, hvc]
  · simp [createUserHandler, hvc]
  · simp [getUserHandler, parseIDFromURL, hnid]
  · simp [getUserHandler, parseIDFromURL, hnid]
  · simp [getUserHandler, parseIDFromURL, hnid]
  · simp [getUserHandler, parseIDFromURL, hbad]
  · simp [updateUserHandler, parseIDFromURL, hnid, hvu]
  · simp [updateUserHandler, parseIDFromURL, hnid, hvu]
  · simp [updateUserHandler, parseIDFromURL, hnid, hvu]
  · simp [updateUserHandler, parseIDFromURL, hnid, hvu]
  · simp [updateUserHandler, parseIDFromURL, hbad]
  · simp [deleteUserHandler, parseIDFromURL, hnid]
  · simp [deleteUserHandler, parseIDFromURL, hnid]
  · simp [deleteUserHandler, parseIDFromURL, hnid]
  · simp [deleteUserHandler, parseIDFromURL, hbad]
  · simp [listUsersHandler]
  · simp [listUsersHandler, hst]

/-- C9 witness: the amended mapping at concrete inputs. -/
theorem c9_witness :
    createUserHandler
      (some { email := "new@example.com", firstName := "John", lastName := "Doe" })
      (.error .duplicateEmail) = 409 ∧
    deleteUserHandler (some 1) (.ok ()) = 204 ∧
    getUserHandler (some 0) (.ok { id := 1, email := "a@b.c", firstName := "A", lastName := "B", createdAt := 0, updatedAt := 0 }) = 400 ∧
    (listUsersHandler (some 0) (some 101) (fun _ _ => .ok ([], 0))).1 = 200 := by
  have h := c9_status_mapping
    { email := "new@example.com", firstName := "John", lastName := "Doe" }
    { email := "", firstName := "", lastName := "" }
    1 0 7 0 { pq := none, isNoRows := false, msg := "boom" }
    { id := 1, email := "a@b.c", firstName := "A", lastName := "B", createdAt := 0, updatedAt := 0 }
    [] (.ok { id := 1, email := "a@b.c", firstName := "A", lastName := "B", createdAt := 0, updatedAt := 0 })
    (.ok ()) (.ok ())
    (fun _ _ => .ok ([], 0))
    (by decide) (by decide) (by decide) (by decide) rfl
  exact ⟨h.1, h.2.2.2.2.2.2.2.2.2.2.2.2.1, h.2.2.2.2.2.2.1, h.2.2.2.2.2.2.2.2.2.2.2.2.2.2.2.2.2⟩

/-- C7 counterexample: the input has a non-empty grammar-valid email and
two non-empty names, so by the claim it must validate, yet
UserCreate.Validate rejects it — the first-name tag also demands an
all-letter value and "John3" contains a digit. -/
theorem c7_counterexample :
    UserCreate.Validate { email := "new@example.com", firstName := "John3", lastName := "Doe" } = false ∧
    ("new@example.com" : String) ≠ "" ∧
    emailMatches "new@example.com" = true ∧
    ("John3" : String) ≠ "" ∧
    ("Doe" : String) ≠ "" := by
  refine ⟨by decide, by decide, by decide, by decide, by decide⟩

/-- C7 amended: UserCreate.Validate succeeds exactly when the email is
non-empty and matches the address grammar and both names are non-empty
all-letter strings; UserUpdate.Validate succeeds exactly when every
supplied field is acceptable — a supplied email must match the grammar, a
supplied name must be an all-letter string of at least 2 characters —
and the update with no supplied fields is valid. -/
theorem c7_validation_rules (u : UserCreate) (v : UserUpdate) :
    (u.Validate = true ↔
      (u.email.data.isEmpty = false ∧ emailMatches u.email = true ∧
       u.firstName.data.isEmpty = false ∧ u.firstName.data.all Char.isAlpha = true ∧
       u.lastName.data.isEmpty = false ∧ u.lastName.data.all Char.isAlpha = true)) ∧
    (v.Validate = true ↔
      ((v.email.data.isEmpty = true ∨ emailMatches v.email = true) ∧
       (v.firstName.data.isEmpty = true ∨
         (v.firstName.data.all Char.isAlpha = true ∧ 2 ≤ v.firstName.data.length)) ∧
       (v.lastName.data.isEmpty = true ∨
         (v.lastName.data.all Char.isAlpha = true ∧ 2 ≤ v.lastName.data.length)))) ∧
    UserUpdate.Validate { email := "", firstName := "", lastName := "" } = true := by
  refine ⟨?_, ?_, by decide⟩
  · by_cases he : u.email.data.isEmpty <;>
      by_cases hf : u.firstName.data.isEmpty <;>
        by_cases hl : u.lastName.data.isEmpty <;>
          simp [UserCreate.Validate, validateField, checkTag, he, hf, hl,
            Bool.and_eq_true, and_assoc]
  · by_cases he : v.email.data.isEmpty <;>
      by_cases hf : v.firstName.data.isEmpty <;>
        by_cases hl : v.lastName.data.isEmpty <;>
          simp [UserUpdate.Validate, validateField, checkTag, he, hf, hl,
            Bool.and_eq_true, and_assoc]

/-- C7 witness: the amended rules at concrete inputs — a digit in a name
rejects a create, a one-letter supplied name rejects an update, and the
empty update validates. -/
theorem c7_witness :
    UserCreate.Validate { email := "a@b.co", firstName := "John3", lastName := "Doe" } = false ∧
    UserUpdate.Validate { email := "", firstName := "J", lastName := "" } = false ∧
    UserUpdate.Validate { email := "", firstName := "", lastName := "" } = true := by
  have h := c7_validation_rules
    { email := "a@b.co", firstName := "John3", lastName := "Doe" }
    { email := "", firstName := "J", lastName := "" }
  refine ⟨?_, ?_, h.2.2⟩
  · have := h.1
    revert this
    decide
  · have := h.2.1
    revert this
    decide

/-- C8: NewPostgresStore leaves every pool knob of the opened handle at
the driver default whatever the configuration carries (the configured
maximum open and idle connections and both lifetimes are never applied),
while it does probe with the five-second timeout and does close the
handle before returning a ping failure. -/
theorem c8_pool_configuration_never_applied (cfg : PostgresConfig) (e : GoError) :
    newPostgresStore cfg none none =
      (.ok { pool := driverDefaultPool },
       [.openConn (connString cfg), .pingWithTimeoutSecs 5]) ∧
    newPostgresStore cfg none (some e) =
      (.error e, [.openConn (connString cfg), .pingWithTimeoutSecs 5, .closeConn]) :=
  ⟨rfl, rfl⟩

end RestfulApi
